import Mathlib

/-!
Verification development for the Commtrex crawl-and-extract pipeline
(`commtrex_flaresolverr_scraper.py` and `commtrex_railcar_storage_scraper.py`).

The two scripts share an identical fetch/retry client, progress store and
orchestrating main loop; they differ only in the page parser and the CSV
schema.  The shared parts are embedded once; the two parsers are embedded
separately.  Effects (HTTP attempts, sleeping, file writes) are made explicit:
the retrying fetcher is driven by an oracle giving the outcome of each attempt
and reports the number of attempts made and the total time slept; the main
loop is a fold over the pending URL list threading an explicit state holding
the completed set, the failed list, the rows written to the CSV and the number
of intermediate checkpoint writes.
-/

set_option maxRecDepth 4096

/-! ## String helpers mirroring Python primitives -/

/-- List-of-chars prefix test. -/
def startsWithChars : List Char → List Char → Bool
  | [], _ => true
  | _ :: _, [] => false
  | c :: cs, d :: ds => c == d && startsWithChars cs ds

/-- Does `needle` occur (contiguously) in `hay`?  The empty needle occurs
everywhere, as in Python. -/
def listContainsSub (needle : List Char) : List Char → Bool
  | [] => needle.isEmpty
  | c :: t => startsWithChars needle (c :: t) || listContainsSub needle t

/-- Python's `needle in hay` substring test. -/
def strContains (hay needle : String) : Bool :=
  needle.isEmpty || listContainsSub needle.toList hay.toList

/-- Python's `str.lower()`, restricted to ASCII (the only case the scraped
titles and labels exercise). -/
def pyLower (s : String) : String :=
  String.mk (s.toList.map Char.toLower)

/-! ## Retrying fetcher (`flaresolverr_get`, identical in both scripts)

`flaresolverr_get` posts to FlareSolverr up to `MAX_RETRIES` times.  One
attempt ends in one of: a response with status `"ok"` (the solution is
returned at once), a non-`"ok"` status, a transport timeout, or any other
exception; the last three all fall through to the retry logic, which sleeps
`DELAY_BETWEEN_REQUESTS * attempt` seconds when the attempt was not the last.
The oracle maps the attempt number (1-based) to that attempt's outcome. -/

def MAX_RETRIES : Nat := 3

def DELAY_BETWEEN_REQUESTS : Nat := 2

inductive AttemptOutcome (α : Type) where
  | ok (sol : α)
  | solverError
  | timeout
  | exn
deriving Repr

def AttemptOutcome.isOk {α : Type} : AttemptOutcome α → Bool
  | .ok _ => true
  | _ => false

/-- Result of a `flaresolverr_get` call: the returned solution (if any),
the number of attempts performed, and the total seconds slept in backoff. -/
structure FsResult (α : Type) where
  result : Option α
  attemptsMade : Nat
  totalSleep : Nat
deriving Repr

/-- The retry loop body of `flaresolverr_get`, iterating over the remaining
attempt numbers (`for attempt in range(1, MAX_RETRIES + 1)`). -/
def fsGo {α : Type} (oracle : Nat → AttemptOutcome α) : List Nat → FsResult α
  | [] => ⟨none, 0, 0⟩
  | a :: rest =>
    match oracle a with
    | .ok sol => ⟨some sol, 1, 0⟩
    | _ =>
      let sleep := if rest ≠ [] then DELAY_BETWEEN_REQUESTS * a else 0
      let r := fsGo oracle rest
      ⟨r.result, r.attemptsMade + 1, r.totalSleep + sleep⟩

/-- `flaresolverr_get(url, session_id)`: run the attempt loop over attempt
numbers `1 .. MAX_RETRIES`; a `none` result models the Python `None` return
(`SolverUnavailable`). -/
def flaresolverr_get {α : Type} (oracle : Nat → AttemptOutcome α) : FsResult α :=
  fsGo oracle (List.range' 1 MAX_RETRIES)

/-! ## HTML page model

BeautifulSoup queries are modelled by structures holding exactly the pieces of
the DOM the parsers inspect.  All node texts are carried as the result of
`get_text(strip=True)` on the corresponding element; `Option` encodes a
`find` that may return `None`. -/

/-- A `<div class="details-box">`: its `div.title` text (if that child
exists) and the texts of `title_div.find_next_siblings("div")` in order. -/
structure DetailsBox where
  title : Option String
  siblings : List String
deriving Repr

/-- A `<label class="field-label">` together with the text of the
`div.display` found in its enclosing `div.row`; `none` when the label has no
`div.row` parent or that row has no `div.display`. -/
structure RowLabel where
  label : String
  display : Option String
deriving Repr

/-- A details container div (`transload-location-details-container` in the
facility scraper, `storage-location-details-container` in the railcar one):
its full `get_text()`, its `label.field-label` rows in document order, the
text of its first `<h3>` and of its first `<p>`. -/
structure DetailsContainer where
  text : String
  rows : List RowLabel
  h3 : Option String
  p : Option String
deriving Repr

/-- The Python exceptions the embedding tracks: the ld+json loop of
`parse_facility` catches only `json.JSONDecodeError` and `TypeError`, so an
`AttributeError` raised by `ld.get`/`addr.get` on a non-dict propagates out
of the function uncaught. -/
inductive PyExn where
  | attributeError
deriving Repr, DecidableEq

/-- The string-valued fields of an address dict inside a `LocalBusiness`
ld+json object: `none` when the JSON key is absent (`dict.get` default
applies). -/
structure LdAddress where
  streetAddress : Option String
  addressLocality : Option String
  addressRegion : Option String
  postalCode : Option String
  addressCountry : Option String
deriving Repr

/-- The value of `ld.get("address", {})` for a `LocalBusiness` dict: the key
may be absent (the `{}` default applies and every address field defaults),
hold a dict, or hold a non-dict JSON value (a list, string, number or
`null`), on which `addr.get("streetAddress", "")` raises an uncaught
`AttributeError`. -/
inductive LdAddressVal where
  | absent
  | dict (a : LdAddress)
  | nonDict
deriving Repr

/-- The fields of a `LocalBusiness` ld+json dict the parser reads: `none`
when the JSON key is absent (`dict.get` default applies). -/
structure LdBusiness where
  name : Option String
  telephone : Option String
  description : Option String
  address : LdAddressVal
deriving Repr

/-- One ld+json script tag, by how `json.loads` plus the `@type` check treat
it: `invalid` is a load failure (`json.JSONDecodeError`, or `TypeError` for
a tag without string content — caught, the loop continues); `nonDict` is
JSON that parses successfully to a non-dict (list, string, number, ...), on
which `ld.get("@type")` raises an uncaught `AttributeError`; `other` is a
dict whose `@type` is not `"LocalBusiness"` (skipped silently); `business`
is a `LocalBusiness` dict. -/
inductive LdScript where
  | invalid
  | nonDict
  | other
  | business (b : LdBusiness)
deriving Repr

/-- A facility page as seen by `parse_facility`: the `<title>` text (if the
tag exists), the ld+json scripts, the `div.details-box` elements and the
`div.transload-location-details-container` elements, each in document
order. -/
structure FacilityHtml where
  title : Option String
  ldScripts : List LdScript
  boxes : List DetailsBox
  containers : List DetailsContainer
deriving Repr

/-- A railcar-storage page as seen by `parse_railcar_storage`: the `<title>`
text, the `div.storage-location-name` text, the `div.details-box` elements
and the `div.storage-location-details-container` elements. -/
structure RailcarHtml where
  title : Option String
  storageLocationName : Option String
  boxes : List DetailsBox
  containers : List DetailsContainer
deriving Repr

/-! ## Shared parsing helpers -/

/-- `re.sub(r"See (?:more|less)$", "", t).strip()` — the pattern is anchored
at the end, so at most the trailing occurrence is removed, then the result is
stripped. -/
def stripSeeSuffix (t : String) : String :=
  if t.endsWith "See more" then (t.dropRight 8).trim
  else if t.endsWith "See less" then (t.dropRight 8).trim
  else t.trim

/-- The per-sibling filtering inside `get_box_values`: drop empty texts and
the `skip` set, strip a trailing "See more"/"See less", drop the value if it
became empty. -/
def cleanBoxValue (t : String) : Option String :=
  if t = "" then none
  else if t = "See more" || t = "See less" || t = "see more" || t = "see less" then none
  else
    let t2 := stripSeeSuffix t
    if t2 = "" then none else some t2

/-- Does a details-box match a heading? (`heading_text.lower() in
title_div.get_text(strip=True).lower()`, skipping boxes without a
`div.title`). -/
def boxMatches (heading : String) (b : DetailsBox) : Bool :=
  match b.title with
  | some t => strContains (pyLower t) (pyLower heading)
  | none => false

/-- `get_box_values` of the facility scraper: first matching box wins, its
sibling texts are cleaned in order.  (The railcar scraper's function of the
same name is this followed by the `"; "` join, see `Railcar.get_box_values`.) -/
def get_box_values (boxes : List DetailsBox) (heading : String) : List String :=
  match boxes.find? (boxMatches heading) with
  | some b => b.siblings.filterMap cleanBoxValue
  | none => []

/-- Python dict built by repeated assignment then read with
`d.get(key, default)`: the last binding of a key wins. -/
def dictGet (pairs : List (String × String)) (key dflt : String) : String :=
  match pairs.reverse.find? (fun p => p.1 == key) with
  | some p => p.2
  | none => dflt

/-- The label/value harvesting loop shared by "Additional Services" (facility)
and "Storage Facility Information" (railcar): take the first container whose
`get_text()[:200]` contains the marker, and collect `(label, display)` pairs
for every `field-label` that has an enclosing row with a `div.display`. -/
def containerDict (cs : List DetailsContainer) (marker : String) : List (String × String) :=
  match cs.find? (fun c => strContains (c.text.take 200) marker) with
  | some c => c.rows.filterMap (fun r => r.display.map (fun d => (r.label, d)))
  | none => []

/-- `re.search(r"/location/(\d+)\.html", url)`: scan left to right for the
first position matching `/location/` + digits + `.html`; group 1 is the digit
run. -/
def scanLocationId : List Char → Option String
  | [] => none
  | c :: rest =>
    if startsWithChars "/location/".toList (c :: rest) then
      let after := (c :: rest).drop 10
      let ds := after.takeWhile Char.isDigit
      let rem := after.dropWhile Char.isDigit
      if ds ≠ [] && startsWithChars ".html".toList rem then some (String.mk ds)
      else scanLocationId rest
    else scanLocationId rest

/-- `m.group(1) if m else ""` for the facility-id regex. -/
def extractId (url : String) : String :=
  (scanLocationId url.toList).getD ""

/-! ## `parse_facility` (commtrex_flaresolverr_scraper.py) -/

/-- The eight identity variables assembled from the ld+json loop. -/
structure LdIdentity where
  name : String
  phone : String
  street : String
  locality : String
  region : String
  postal : String
  country : String
  ld_desc : String
deriving Repr

/-- The ld+json loop of `parse_facility`, script by script, threading the
eight identity variables.  A load failure continues (caught exceptions); a
dict of another `@type` is skipped; a `LocalBusiness` overwrites all eight
variables (`dict.get` defaults applied; an absent `address` behaves as `{}`).
JSON that parses to a non-dict, or a `LocalBusiness` whose `address` holds a
non-dict, raises `AttributeError`, which is NOT among the caught exception
classes: the loop — and with it `parse_facility` — aborts with the
exception. -/
def foldLdAux (acc : LdIdentity) : List LdScript → Except PyExn LdIdentity
  | [] => .ok acc
  | s :: rest =>
    match s with
    | .invalid => foldLdAux acc rest
    | .other => foldLdAux acc rest
    | .nonDict => .error .attributeError
    | .business b =>
      match b.address with
      | .nonDict => .error .attributeError
      | .absent =>
        foldLdAux
          { name := b.name.getD "", phone := b.telephone.getD ""
            street := "", locality := "", region := "", postal := ""
            country := "US", ld_desc := b.description.getD "" } rest
      | .dict a =>
        foldLdAux
          { name := b.name.getD "", phone := b.telephone.getD ""
            street := a.streetAddress.getD "", locality := a.addressLocality.getD ""
            region := a.addressRegion.getD "", postal := a.postalCode.getD ""
            country := a.addressCountry.getD "US", ld_desc := b.description.getD "" } rest

/-- The whole ld+json loop, from the initial assignments (`country = "US"`,
the rest empty). -/
def foldLd (scripts : List LdScript) : Except PyExn LdIdentity :=
  foldLdAux
    { name := "", phone := "", street := "", locality := "", region := ""
      postal := "", country := "US", ld_desc := "" } scripts

/-- `day_map` of the hours loop. -/
def day_map : List (String × String) :=
  [("monday", "mon"), ("tuesday", "tue"), ("wednesday", "wed"),
   ("thursday", "thu"), ("friday", "fri"), ("saturday", "sat"), ("sunday", "sun")]

/-- The "Hours of Operation" loop: first container whose full text contains
"Hours of Operation" or "Operating Hours"; each `field-label` whose lowered
text is a known day name and whose row has a `div.display` assigns
`hours[day_key] = display`.  Returned as assignment pairs (last wins). -/
def hoursPairs (cs : List DetailsContainer) : List (String × String) :=
  match cs.find? (fun c =>
      strContains c.text "Hours of Operation" || strContains c.text "Operating Hours") with
  | some c =>
    c.rows.filterMap (fun r =>
      match day_map.find? (fun p => p.1 == pyLower r.label) with
      | some p => r.display.map (fun d => (p.2, d))
      | none => none)
  | none => []

/-- The "About" loop of `parse_facility`: first container whose first `<h3>`
text (lowered) contains "about"; its first `<p>` text, or `""` when that
container has no `<p>`. -/
def aboutText (cs : List DetailsContainer) : String :=
  match cs.find? (fun c =>
      match c.h3 with
      | some t => strContains (pyLower t) "about"
      | none => false) with
  | some c => c.p.getD ""
  | none => ""

namespace Facility

/-- `CSV_FIELDS` of commtrex_flaresolverr_scraper.py. -/
def CSV_FIELDS : List String :=
  ["id", "name", "street_address", "city", "state", "zip_code", "country",
   "phone", "description", "product_types", "hazmat_handling",
   "transfer_modes", "railroads", "track_capacity", "security_features",
   "equipment", "cities_served", "storage_options", "heating_capabilities",
   "kosher_certification", "onsite_railcar_storage", "onsite_scale",
   "weight_restricted_263k", "weight_restricted_286k",
   "hours_mon", "hours_tue", "hours_wed", "hours_thu",
   "hours_fri", "hours_sat", "hours_sun",
   "about", "url", "scraped_at"]

end Facility

/-- `parse_facility(html, url)`.  The returned record is the Python dict
literal as an ordered key/value list; `now` is the value of
`datetime.utcnow().isoformat()` at extraction time.  `.error` models the
function raising an uncaught `AttributeError` out of the ld+json loop
(title guard first, as in the source). -/
def parse_facility (now : String) (page : FacilityHtml) (url : String) :
    Except PyExn (Option (List (String × String))) :=
  let title := page.title.getD ""
  if strContains title "50x" || strContains (pyLower title) "error" || strContains title "404" then
    .ok none
  else match foldLd page.ldScripts with
  | .error e => .error e
  | .ok idn =>
    let name :=
      if idn.name = "" && title ≠ "" then ((title.splitOn "|").headD "").trim else idn.name
    let fac_id := extractId url
    let product_types := get_box_values page.boxes "Product Types Handled"
    let hazmat_vals := get_box_values page.boxes "Hazardous Material Handling"
    let hazmat := hazmat_vals.headD ""
    let transfer_modes := get_box_values page.boxes "Transfer Modes"
    let railroads := get_box_values page.boxes "Serving Class I Railroads"
    let track_vals := get_box_values page.boxes "Track Capacity"
    let track_capacity := track_vals.headD ""
    let security := get_box_values page.boxes "Security"
    let equipment := get_box_values page.boxes "Transload Equipment"
    let cities_served := get_box_values page.boxes "Cities Served"
    let additional := containerDict page.containers "Additional Services"
    let hrs := hoursPairs page.containers
    let about := aboutText page.containers
    .ok (some
      [("id", fac_id),
       ("name", name),
       ("street_address", idn.street),
       ("city", idn.locality),
       ("state", idn.region),
       ("zip_code", idn.postal),
       ("country", idn.country),
       ("phone", idn.phone),
       ("description", idn.ld_desc),
       ("product_types", String.intercalate "; " product_types),
       ("hazmat_handling", hazmat),
       ("transfer_modes", String.intercalate "; " transfer_modes),
       ("railroads", String.intercalate "; " railroads),
       ("track_capacity", track_capacity),
       ("security_features", String.intercalate "; " security),
       ("equipment", String.intercalate "; " equipment),
       ("cities_served", String.intercalate "; " cities_served),
       ("storage_options", dictGet additional "Product Storage Options" ""),
       ("heating_capabilities", dictGet additional "Heating Capabilities" ""),
       ("kosher_certification", dictGet additional "Kosher Certification" ""),
       ("onsite_railcar_storage", dictGet additional "Onsite Railcar Storage" ""),
       ("onsite_scale", dictGet additional "Onsite Scale" ""),
       ("weight_restricted_263k", dictGet additional "Weight Restricted 263k" ""),
       ("weight_restricted_286k", dictGet additional "Weight Restricted 286k" ""),
       ("hours_mon", dictGet hrs "mon" ""),
       ("hours_tue", dictGet hrs "tue" ""),
       ("hours_wed", dictGet hrs "wed" ""),
       ("hours_thu", dictGet hrs "thu" ""),
       ("hours_fri", dictGet hrs "fri" ""),
       ("hours_sat", dictGet hrs "sat" ""),
       ("hours_sun", dictGet hrs "sun" ""),
       ("about", about),
       ("url", url),
       ("scraped_at", now)])

/-! ## `parse_railcar_storage` (commtrex_railcar_storage_scraper.py) -/

/-- `re.sub(r"\s*Railcar Storage Facility\s*$", "", name).strip()`: the
pattern is end-anchored and greedy, so it removes trailing whitespace, the
literal suffix and the whitespace right before it; the final `.strip()` is
applied either way. -/
def stripRailcarSuffix (s : String) : String :=
  let t := s.trimRight
  if t.endsWith "Railcar Storage Facility" then (t.dropRight 24).trim else s.trim

/-- The "About" loop of `parse_railcar_storage`: first container whose
`get_text()[:30]` contains "About"; its first `<p>`, else `""`. -/
def railcarAboutText (cs : List DetailsContainer) : String :=
  match cs.find? (fun c => strContains (c.text.take 30) "About") with
  | some c => c.p.getD ""
  | none => ""

namespace Railcar

/-- `CSV_FIELDS` of commtrex_railcar_storage_scraper.py. -/
def CSV_FIELDS : List String :=
  ["id", "name", "location", "city", "state",
   "interchange_railroads", "capacity", "hazmat_suited",
   "rail_services", "facility_types", "track_types",
   "about", "url", "scraped_at"]

/-- `get_box_values` as defined inside `parse_railcar_storage`: the same
box scan and value cleaning as the facility scraper's, but returning the
values already `"; "`-joined (and `""` when no box matches). -/
def get_box_values (boxes : List DetailsBox) (heading : String) : String :=
  match boxes.find? (boxMatches heading) with
  | some b => String.intercalate "; " (b.siblings.filterMap cleanBoxValue)
  | none => ""

end Railcar

/-- `parse_railcar_storage(html, url)`; `now` is the extraction timestamp. -/
def parse_railcar_storage (now : String) (page : RailcarHtml) (url : String) :
    Option (List (String × String)) :=
  let title := page.title.getD ""
  if strContains title "50x" || strContains title "404" then
    none
  else
    let fac_id := extractId url
    let name0 := stripRailcarSuffix (page.storageLocationName.getD "")
    let name :=
      if name0 = "" && title ≠ "" then
        ((((title.splitOn "|").headD "").trim).replace " Railcar Storage Facility" "").trim
      else name0
    let info := containerDict page.containers "Storage Facility Information"
    let location := dictGet info "Location" ""
    let interchange := dictGet info "Interchange" ""
    let capacity := dictGet info "Capacity" ""
    let hazmat := dictGet info "Suited for HazMat" ""
    let cityState :=
      if strContains location "," then
        let parts := (location.splitOn ",").map String.trim
        (parts.headD "", if parts.length > 1 then parts.getD 1 "" else "")
      else ("", "")
    let rail_services := Railcar.get_box_values page.boxes "Rail Services Offered"
    let facility_types := Railcar.get_box_values page.boxes "Facility Type"
    let track_types := Railcar.get_box_values page.boxes "Track Type"
    let about := railcarAboutText page.containers
    some
      [("id", fac_id),
       ("name", name),
       ("location", location),
       ("city", cityState.1),
       ("state", cityState.2),
       ("interchange_railroads", interchange),
       ("capacity", capacity),
       ("hazmat_suited", hazmat),
       ("rail_services", rail_services),
       ("facility_types", facility_types),
       ("track_types", track_types),
       ("about", about),
       ("url", url),
       ("scraped_at", now)]

/-! ## Progress store (`save_progress`, identical in both scripts) -/

/-- One entry of the `failed` list: the dicts
`{"url": ..., "error": "flaresolverr_failed"}`,
`{"url": ..., "error": "server_error", "redirect": final_url}` and
`{"url": ..., "error": "parse_failed"}`. -/
structure FailEntry where
  url : String
  error : String
  redirect : Option String
deriving Repr, DecidableEq

/-- The JSON object `save_progress` writes to the progress file. -/
structure Checkpoint where
  completed : List String
  failed : List FailEntry
  last_updated : String
  total_completed : Nat
  total_failed : Nat
deriving Repr

/-- `save_progress(completed, failed)`; `now` is
`datetime.utcnow().isoformat()`.  The Python `set` is modelled as a
duplicate-free list, so `list(completed)` is the list itself. -/
def save_progress (now : String) (completed : List String) (failed : List FailEntry) :
    Checkpoint :=
  { completed := completed
    failed := failed
    last_updated := now
    total_completed := completed.length
    total_failed := failed.length }

/-! ## Queue construction and CSV opening (start of `main`, both scripts) -/

/-- Python `l[:n]` for an `int` n (negative n drops elements from the end;
`Int.toNat` clamps at zero exactly as the slice does). -/
def pySliceTo {α : Type} (l : List α) (n : Int) : List α :=
  if 0 ≤ n then l.take n.toNat else l.take ((l.length : Int) + n).toNat

/-- The queue built by `main`: `completed = load_progress() if args.resume
else set()`, `pending = [u for u in urls if u not in completed]`, and
`pending = pending[:args.limit]` only when `args.limit` is truthy
(non-zero). -/
def buildQueue (urls : List String) (resume : Bool) (loaded : List String)
    (limit : Int) : List String :=
  let completed := if resume then loaded else []
  let pending := urls.filter (fun u => !(completed.contains u))
  if limit ≠ 0 then pySliceTo pending limit else pending

/-- `write_header = not output_path.exists() or not args.resume`. -/
def write_header (output_exists resume : Bool) : Bool :=
  !output_exists || !resume

/-- The mode the output CSV is opened with: `"a" if args.resume else "w"`. -/
def csvOpenMode (resume : Bool) : String :=
  if resume then "a" else "w"

/-! ## The scraping loop (body of `main`, identical in both scripts up to the
parser and the schema)

The fetch is abstracted as `fetch : String → Option (α × Option String)`:
`none` models `flaresolverr_get` returning `None` (which the loop tests with
`if not sol`), and `some (html, u)` models a solution dict whose
`"response"` is `html` and whose `"url"` is `u` (`none` when the key is
absent, so `sol.get("url", url)` falls back to the request URL).  The parser
is `parse : α → String → Option ρ`; it is applied to the *request* URL, as in
the source. -/

/-- Observable state threaded through the loop: the `completed` set (as a
duplicate-free list in insertion order), the `failed` list, the rows written
to the CSV in order, the two counters, and the number of intermediate
`save_progress` calls made inside the loop. -/
structure LoopState (ρ : Type) where
  completed : List String
  failed : List FailEntry
  rows : List ρ
  success_count : Nat
  fail_count : Nat
  saves : Nat
deriving Repr

/-- `completed.add(url)` on the set, as insertion into a duplicate-free
list. -/
def addCompleted (l : List String) (u : String) : List String :=
  if u ∈ l then l else l ++ [u]

/-- One iteration of the `for i, url in enumerate(pending, 1)` body.  The two
failure branches end in `continue`, so they skip the periodic
`if i % 25 == 0: save_progress(...)` check; the success and parse-failure
branches reach it. -/
def processUrl {α ρ : Type} (parse : α → String → Option ρ)
    (fetch : String → Option (α × Option String))
    (i : Nat) (url : String) (s : LoopState ρ) : LoopState ρ :=
  match fetch url with
  | none =>
    { s with fail_count := s.fail_count + 1
             failed := s.failed ++ [⟨url, "flaresolverr_failed", none⟩] }
  | some (html, u) =>
    let final_url := u.getD url
    if strContains final_url "error/50x" || strContains final_url "error/404" then
      { s with fail_count := s.fail_count + 1
               failed := s.failed ++ [⟨url, "server_error", some final_url⟩]
               completed := addCompleted s.completed url }
    else
      let s1 :=
        match parse html url with
        | some row =>
          { s with rows := s.rows ++ [row]
                   success_count := s.success_count + 1
                   completed := addCompleted s.completed url }
        | none =>
          { s with fail_count := s.fail_count + 1
                   failed := s.failed ++ [⟨url, "parse_failed", none⟩] }
      if i % 25 == 0 then { s1 with saves := s1.saves + 1 } else s1

/-- The loop from iteration index `i` on. -/
def runFrom {α ρ : Type} (parse : α → String → Option ρ)
    (fetch : String → Option (α × Option String)) :
    Nat → List String → LoopState ρ → LoopState ρ
  | _, [], s => s
  | i, url :: rest, s => runFrom parse fetch (i + 1) rest (processUrl parse fetch i url s)

/-- The whole loop (`enumerate(pending, 1)` starts the index at 1). -/
def runLoop {α ρ : Type} (parse : α → String → Option ρ)
    (fetch : String → Option (α × Option String))
    (pending : List String) (s : LoopState ρ) : LoopState ρ :=
  runFrom parse fetch 1 pending s

/-- The state at loop entry: `completed` as loaded (or empty), `failed = []`,
no rows written, both counters zero. -/
def initState {ρ : Type} (completed : List String) : LoopState ρ :=
  ⟨completed, [], [], 0, 0, 0⟩

/-- Total number of `save_progress` calls in one run: the intermediate saves
made inside the loop plus the one unconditional save in the `finally` block
(executed on normal completion and on `KeyboardInterrupt` alike). -/
def checkpointWrites {α ρ : Type} (parse : α → String → Option ρ)
    (fetch : String → Option (α × Option String))
    (pending : List String) (completed : List String) : Nat :=
  (runLoop parse fetch pending (initState completed)).saves + 1

/-- Does the iteration for `url` get past the two `continue` branches and
reach the parse stage (and hence the periodic-checkpoint check)? -/
def reachesParse {α : Type} (fetch : String → Option (α × Option String))
    (url : String) : Bool :=
  match fetch url with
  | none => false
  | some (_, u) =>
    let final_url := u.getD url
    !(strContains final_url "error/50x" || strContains final_url "error/404")

/-! ## Helper lemmas -/

/-- One failed attempt of the retry loop: the loop falls through to the
backoff and recurses on the remaining attempt numbers. -/
theorem fsGo_fail {α : Type} (oracle : Nat → AttemptOutcome α) (a : Nat)
    (rest : List Nat) (h : (oracle a).isOk = false) :
    fsGo oracle (a :: rest) =
      ⟨(fsGo oracle rest).result, (fsGo oracle rest).attemptsMade + 1,
       (fsGo oracle rest).totalSleep +
         (if rest ≠ [] then DELAY_BETWEEN_REQUESTS * a else 0)⟩ := by
  cases ho : oracle a <;> simp [AttemptOutcome.isOk, ho] at h ⊢ <;> simp [fsGo, ho]

/-- A successful attempt returns the solution at once, with no sleep. -/
theorem fsGo_ok {α : Type} (oracle : Nat → AttemptOutcome α) (a : Nat)
    (rest : List Nat) (sol : α) (h : oracle a = .ok sol) :
    fsGo oracle (a :: rest) = ⟨some sol, 1, 0⟩ := by
  simp [fsGo, h]

/-- Each loop iteration appends a row exactly when it bumps the success
counter. -/
theorem processUrl_rows_count {α ρ : Type} (parse : α → String → Option ρ)
    (fetch : String → Option (α × Option String)) (i : Nat) (url : String)
    (s : LoopState ρ) :
    (processUrl parse fetch i url s).rows.length + s.success_count =
      (processUrl parse fetch i url s).success_count + s.rows.length := by
  unfold processUrl
  cases fetch url with
  | none => simp; omega
  | some p =>
    obtain ⟨html, u⟩ := p
    simp only
    split
    · simp; omega
    · cases hp : parse html url <;> split <;> simp [hp] <;> omega

/-- The row/success balance is preserved by the whole loop. -/
theorem runFrom_rows_count {α ρ : Type} (parse : α → String → Option ρ)
    (fetch : String → Option (α × Option String)) :
    ∀ (l : List String) (i : Nat) (s : LoopState ρ),
      (runFrom parse fetch i l s).rows.length + s.success_count =
        (runFrom parse fetch i l s).success_count + s.rows.length
  | [], _, s => Nat.add_comm s.rows.length s.success_count
  | url :: rest, i, s => by
    have h1 := processUrl_rows_count parse fetch i url s
    have h2 := runFrom_rows_count parse fetch rest (i + 1) (processUrl parse fetch i url s)
    simp only [runFrom] at h2 ⊢
    omega

/-! ## Claims -/

/-- C3: when every attempt fails, `flaresolverr_get` makes exactly
`MAX_RETRIES = 3` attempts, sleeps `DELAY_BETWEEN_REQUESTS * attempt` after
each failed attempt except the last (total `DELAY_BETWEEN_REQUESTS * (1 + 2)`
seconds) and returns `None`; a first attempt with status `"ok"` returns the
solution immediately with no sleep. -/
theorem flaresolverr_get_retry_bound {α : Type} (oracle : Nat → AttemptOutcome α) :
    ((∀ a, (oracle a).isOk = false) →
      flaresolverr_get oracle =
        ⟨none, MAX_RETRIES, DELAY_BETWEEN_REQUESTS * (1 + 2)⟩) ∧
    (∀ sol, oracle 1 = .ok sol → flaresolverr_get oracle = ⟨some sol, 1, 0⟩) := by
  constructor
  · intro h
    show fsGo oracle [1, 2, 3] = _
    rw [fsGo_fail oracle 1 _ (h 1), fsGo_fail oracle 2 _ (h 2), fsGo_fail oracle 3 _ (h 3)]
    rfl
  · intro sol h
    show fsGo oracle [1, 2, 3] = _
    exact fsGo_ok oracle 1 _ sol h

/-- Witness for C3: an oracle that always reports solver failure, and one
that succeeds on the first attempt. -/
theorem flaresolverr_get_retry_bound_witness :
    flaresolverr_get (fun _ => (AttemptOutcome.solverError : AttemptOutcome Nat)) =
      ⟨none, MAX_RETRIES, DELAY_BETWEEN_REQUESTS * (1 + 2)⟩ ∧
    flaresolverr_get (fun _ => (AttemptOutcome.ok 7 : AttemptOutcome Nat)) = ⟨some 7, 1, 0⟩ :=
  ⟨(flaresolverr_get_retry_bound _).1 (fun _ => rfl),
   (flaresolverr_get_retry_bound _).2 7 rfl⟩

/-- C6: the work queue is the input URL list in order minus the loaded
completed set, truncated to the first `limit` entries when a positive limit
is given; a URL in the loaded completed set is never queued (hence never
fetched) on a resumed run, whatever the limit. -/
theorem resume_queue_excludes_completed (urls loaded : List String) :
    (∀ (limit : Int) (u : String), u ∈ loaded → u ∉ buildQueue urls true loaded limit) ∧
    buildQueue urls true loaded 0 = urls.filter (fun u => !(loaded.contains u)) ∧
    (∀ limit : Int, 0 < limit →
      buildQueue urls true loaded limit =
        (urls.filter (fun u => !(loaded.contains u))).take limit.toNat) := by
  refine ⟨?_, by simp [buildQueue], ?_⟩
  · intro limit u hu hmem
    have hsub : u ∈ urls.filter (fun x => !(loaded.contains x)) := by
      revert hmem
      unfold buildQueue pySliceTo
      simp only [if_true]
      split
      · split
        · exact fun hm => List.mem_of_mem_take hm
        · exact fun hm => List.mem_of_mem_take hm
      · exact id
    rw [List.mem_filter] at hsub
    simp [hu] at hsub
  · intro limit hpos
    have h0 : limit ≠ 0 := by omega
    unfold buildQueue pySliceTo
    simp [h0, hpos.le]

/-- Witness for C6: `"a"` is already completed and does not reappear in the
queue; the queue is the filtered list truncated to the limit. -/
theorem resume_queue_excludes_completed_witness :
    "a" ∉ buildQueue ["a", "b", "c"] true ["a"] 2 ∧
    buildQueue ["a", "b", "c"] true ["a"] 2 =
      (["a", "b", "c"].filter (fun u => !(List.contains ["a"] u))).take (2 : Int).toNat :=
  ⟨(resume_queue_excludes_completed ["a", "b", "c"] ["a"]).1 2 "a" (by decide),
   (resume_queue_excludes_completed ["a", "b", "c"] ["a"]).2.2 2 (by decide)⟩

/-- C7 counterexample: with the resume flag set but the output file not yet
existing, the file is opened in append mode yet the header row IS written
(`write_header = not output_path.exists() or not args.resume`), contradicting
"when the resume flag is set ... the header row is omitted". -/
theorem resume_header_counterexample :
    csvOpenMode true = "a" ∧ write_header false true = true :=
  ⟨rfl, rfl⟩

/-- C7 amended: the open mode depends only on the resume flag (`"a"` when
resuming, `"w"` otherwise), but the header is omitted exactly when resuming
AND the output file already exists; and per run, the number of rows written
equals the number of successful extractions (one row per success). -/
theorem resume_header_amended :
    (∀ output_exists resume, write_header output_exists resume = !(output_exists && resume)) ∧
    csvOpenMode true = "a" ∧ csvOpenMode false = "w" ∧
    (∀ {α ρ : Type} (parse : α → String → Option ρ)
       (fetch : String → Option (α × Option String)) (pending c : List String),
      (runLoop parse fetch pending (initState c)).rows.length =
        (runLoop parse fetch pending (initState c)).success_count) := by
  refine ⟨?_, rfl, rfl, ?_⟩
  · intro ex r
    cases ex <;> cases r <;> rfl
  · intro α ρ parse fetch pending c
    have h := runFrom_rows_count parse fetch pending 1 (initState c)
    simp [runLoop, initState] at h ⊢
    omega

/-- C9: with `--limit 0` (the default) no truncation is applied: the queue is
the whole filtered pending list, identical to the uncapped behaviour. -/
theorem limit_zero_no_cap (urls loaded : List String) (resume : Bool) :
    buildQueue urls resume loaded 0 =
      urls.filter (fun u => !((if resume then loaded else []).contains u)) := by
  simp [buildQueue]

/-- C10: every checkpoint produced by `save_progress` records
`total_completed` and `total_failed` equal to the lengths of the persisted
`completed` and `failed` collections. -/
theorem save_progress_counters (now : String) (completed : List String)
    (failed : List FailEntry) :
    (save_progress now completed failed).total_completed =
      (save_progress now completed failed).completed.length ∧
    (save_progress now completed failed).total_failed =
      (save_progress now completed failed).failed.length :=
  ⟨rfl, rfl⟩

/-- C1: in any run, a URL whose fetch exhausts all retries
(`flaresolverr_get` returns `None`) is appended to `failed` (error
`"flaresolverr_failed"`) but NOT added to `completed`; a URL whose solved
final URL contains `"error/50x"` or `"error/404"` is appended to `failed`
with the redirect target AND added to `completed`; in neither case is a row
written to the output table. -/
theorem solver_failure_vs_error_redirect {α ρ : Type}
    (parse : α → String → Option ρ) (fetch : String → Option (α × Option String))
    (i : Nat) (url : String) (s : LoopState ρ) :
    (fetch url = none →
      (processUrl parse fetch i url s).failed =
        s.failed ++ [⟨url, "flaresolverr_failed", none⟩] ∧
      (processUrl parse fetch i url s).completed = s.completed ∧
      (processUrl parse fetch i url s).rows = s.rows) ∧
    (∀ (html : α) (u : Option String), fetch url = some (html, u) →
      (strContains (u.getD url) "error/50x" || strContains (u.getD url) "error/404") = true →
      (processUrl parse fetch i url s).failed =
        s.failed ++ [⟨url, "server_error", some (u.getD url)⟩] ∧
      url ∈ (processUrl parse fetch i url s).completed ∧
      (processUrl parse fetch i url s).rows = s.rows) := by
  constructor
  · intro h
    simp [processUrl, h]
  · intro html u h hredir
    have he : processUrl parse fetch i url s =
        { s with fail_count := s.fail_count + 1
                 failed := s.failed ++ [⟨url, "server_error", some (u.getD url)⟩]
                 completed := addCompleted s.completed url } := by
      simp [processUrl, h, hredir]
    rw [he]
    refine ⟨rfl, ?_, rfl⟩
    by_cases hc : url ∈ s.completed <;> simp [addCompleted, hc]

/-- Witness for C1: a fetch that always fails leaves `completed` empty and
records the failure; a fetch redirected to the site's 404 page marks the URL
completed. -/
theorem solver_failure_vs_error_redirect_witness :
    (processUrl (fun (_ : Unit) (_ : String) => (none : Option Unit))
        (fun _ => none) 1 "u" (initState [])).completed = [] ∧
    (processUrl (fun (_ : Unit) (_ : String) => (none : Option Unit))
        (fun _ => none) 1 "u" (initState [])).failed =
      [⟨"u", "flaresolverr_failed", none⟩] ∧
    "u" ∈ (processUrl (fun (_ : Unit) (_ : String) => (none : Option Unit))
        (fun _ => some ((), some "https://www.commtrex.com/error/404.html"))
        1 "u" (initState [])).completed := by
  refine ⟨?_, ?_, ?_⟩
  · exact ((solver_failure_vs_error_redirect _ _ 1 "u" (initState [])).1 rfl).2.1
  · exact ((solver_failure_vs_error_redirect _ _ 1 "u" (initState [])).1 rfl).1
  · exact ((solver_failure_vs_error_redirect _ _ 1 "u" (initState [])).2 ()
      (some "https://www.commtrex.com/error/404.html") rfl (by decide)).2.1

/-- C2 counterexample: a fetch that succeeds with no error-redirect but whose
page carries the in-body error title `"404 Not Found"` makes the extractor
(here `parse_railcar_storage`; the facility scraper's parse-failed branch is
identical) return `None`; after the run the URL is in `failed` as
`"parse_failed"` but NOT in `completed` — contradicting the claim that such a
URL is recorded as completed and never re-fetched. -/
theorem parse_failed_not_completed_counterexample :
    parse_railcar_storage "2024-01-01T00:00:00"
      ⟨some "404 Not Found", none, [], []⟩ "https://www.commtrex.com/location/1.html" = none ∧
    (runLoop (parse_railcar_storage "2024-01-01T00:00:00")
        (fun _ => some (⟨some "404 Not Found", none, [], []⟩, none))
        ["https://www.commtrex.com/location/1.html"] (initState [])).completed = [] ∧
    (runLoop (parse_railcar_storage "2024-01-01T00:00:00")
        (fun _ => some (⟨some "404 Not Found", none, [], []⟩, none))
        ["https://www.commtrex.com/location/1.html"] (initState [])).failed =
      [⟨"https://www.commtrex.com/location/1.html", "parse_failed", none⟩] :=
  ⟨rfl, rfl, rfl⟩

/-- C2 amended: a URL whose fetch succeeds without an error-redirect but
whose extractor returns `None` is appended to `failed` with error
`"parse_failed"` and is NOT added to `completed` (and writes no row); it
therefore stays in the queue of a future resumed run. -/
theorem parse_failed_not_completed_amended {α ρ : Type}
    (parse : α → String → Option ρ) (fetch : String → Option (α × Option String))
    (i : Nat) (url : String) (s : LoopState ρ) (html : α) (u : Option String)
    (hf : fetch url = some (html, u))
    (hredir : (strContains (u.getD url) "error/50x" ||
               strContains (u.getD url) "error/404") = false)
    (hp : parse html url = none) :
    (processUrl parse fetch i url s).failed = s.failed ++ [⟨url, "parse_failed", none⟩] ∧
    (processUrl parse fetch i url s).completed = s.completed ∧
    (processUrl parse fetch i url s).rows = s.rows ∧
    (∀ urls : List String, url ∈ urls → url ∉ s.completed →
      url ∈ buildQueue urls true (processUrl parse fetch i url s).completed 0) := by
  have hfields :
      (processUrl parse fetch i url s).failed = s.failed ++ [⟨url, "parse_failed", none⟩] ∧
      (processUrl parse fetch i url s).completed = s.completed ∧
      (processUrl parse fetch i url s).rows = s.rows := by
    simp only [processUrl, hf]
    simp only [hredir, Bool.false_eq_true, if_false, hp]
    split <;> exact ⟨rfl, rfl, rfl⟩
  refine ⟨hfields.1, hfields.2.1, hfields.2.2, ?_⟩
  intro urls hmem hnot
  rw [hfields.2.1]
  simp [buildQueue, List.mem_filter, hmem, hnot]

/-- Witness for C2 amended: the in-body 404 page leaves `completed` empty and
the URL re-enters the queue of a resumed run. -/
theorem parse_failed_not_completed_amended_witness :
    (processUrl (parse_railcar_storage "t")
        (fun _ => some ((⟨some "404 Not Found", none, [], []⟩ : RailcarHtml), none))
        1 "https://x/location/9.html" (initState [])).completed = [] ∧
    "https://x/location/9.html" ∈ buildQueue ["https://x/location/9.html"] true
      (processUrl (parse_railcar_storage "t")
        (fun _ => some ((⟨some "404 Not Found", none, [], []⟩ : RailcarHtml), none))
        1 "https://x/location/9.html" (initState [])).completed 0 := by
  have h := parse_failed_not_completed_amended (parse_railcar_storage "t")
    (fun _ => some ((⟨some "404 Not Found", none, [], []⟩ : RailcarHtml), none)) 1
    "https://x/location/9.html" (initState [])
    ⟨some "404 Not Found", none, [], []⟩ none rfl (by decide) rfl
  exact ⟨h.2.1, h.2.2.2 _ (by decide) (by decide)⟩

/-- The periodic checkpoint fires in iteration `i` exactly when `i` is a
multiple of 25 AND the iteration reaches the parse stage (the two `continue`
branches skip the check). -/
theorem processUrl_saves {α ρ : Type} (parse : α → String → Option ρ)
    (fetch : String → Option (α × Option String)) (i : Nat) (url : String)
    (s : LoopState ρ) :
    (processUrl parse fetch i url s).saves =
      s.saves + (if (i % 25 == 0) && reachesParse fetch url then 1 else 0) := by
  unfold processUrl reachesParse
  cases hf : fetch url with
  | none => simp
  | some p =>
    obtain ⟨html, u⟩ := p
    by_cases hc : (strContains (u.getD url) "error/50x" ||
        strContains (u.getD url) "error/404") = true
    · simp [hc]
    · have hc' : (strContains (u.getD url) "error/50x" ||
          strContains (u.getD url) "error/404") = false := by
        revert hc
        cases (strContains (u.getD url) "error/50x" || strContains (u.getD url) "error/404") <;>
          simp
      cases hp : parse html url <;> by_cases hm : (i % 25 == 0) = true <;>
        simp [hp, hc', hm]

/-- Accumulated save count over the whole loop: one per index that is a
multiple of 25 whose iteration reaches the parse stage. -/
theorem runFrom_saves {α ρ : Type} (parse : α → String → Option ρ)
    (fetch : String → Option (α × Option String)) :
    ∀ (l : List String) (i : Nat) (s : LoopState ρ),
      (runFrom parse fetch i l s).saves =
        s.saves + ((l.enumFrom i).countP fun p => (p.1 % 25 == 0) && reachesParse fetch p.2)
  | [], _, _ => by simp [runFrom, List.enumFrom]
  | url :: rest, i, s => by
    have h1 := processUrl_saves parse fetch i url s
    have h2 := runFrom_saves parse fetch rest (i + 1) (processUrl parse fetch i url s)
    simp only [runFrom, List.enumFrom, List.countP_cons] at h2 ⊢
    rw [h2, h1]
    by_cases hm : ((i % 25 == 0) && reachesParse fetch url) = true <;>
      first
      | (simp [hm]; omega)
      | simp [hm]

/-- When every queued URL reaches the parse stage, the save count only
depends on the index range. -/
theorem enumFrom_countP_of_all {α : Type} (fetch : String → Option (α × Option String)) :
    ∀ (l : List String) (i : Nat), (∀ u ∈ l, reachesParse fetch u = true) →
      ((l.enumFrom i).countP fun p => (p.1 % 25 == 0) && reachesParse fetch p.2) =
        ((List.range' i l.length).countP fun n => n % 25 == 0)
  | [], _, _ => rfl
  | u :: rest, i, h => by
    have hr := enumFrom_countP_of_all fetch rest (i + 1)
      (fun v hv => h v (List.mem_cons_of_mem _ hv))
    have hu : reachesParse fetch u = true := h u (List.mem_cons_self _ _)
    simp [List.enumFrom, List.countP_cons, List.range'_succ, hu, hr]

/-- C8 counterexample: a run over 26 URLs all of which fail at the solver
performs only the single shutdown checkpoint write — the 25th iteration
`continue`s past the periodic save, so the claimed two writes do not occur. -/
theorem checkpoint_26_counterexample :
    (List.replicate 26 "u").length = 26 ∧
    checkpointWrites (fun (_ : Unit) (_ : String) => (none : Option Unit))
      (fun _ => none) (List.replicate 26 "u") [] = 1 :=
  ⟨rfl, rfl⟩

/-- C8 amended: one run performs `1 + k` checkpoint writes, where `k` counts
the iteration indices (1-based) that are multiples of 25 AND whose iteration
reaches the parse stage — the solver-failure and error-redirect branches
`continue` past the periodic save; in particular a 26-URL run performs
exactly two writes when every fetch reaches the parse stage. -/
theorem checkpoint_cadence {α ρ : Type} (parse : α → String → Option ρ)
    (fetch : String → Option (α × Option String)) (pending completed : List String) :
    checkpointWrites parse fetch pending completed =
      1 + ((pending.enumFrom 1).countP fun p => (p.1 % 25 == 0) && reachesParse fetch p.2) ∧
    (pending.length = 26 → (∀ u ∈ pending, reachesParse fetch u = true) →
      checkpointWrites parse fetch pending completed = 2) := by
  have hmain : checkpointWrites parse fetch pending completed =
      1 + ((pending.enumFrom 1).countP fun p => (p.1 % 25 == 0) && reachesParse fetch p.2) := by
    unfold checkpointWrites runLoop
    rw [runFrom_saves]
    simp [initState, Nat.add_comm]
  refine ⟨hmain, ?_⟩
  intro hlen hall
  rw [hmain, enumFrom_countP_of_all fetch pending 1 hall, hlen]
  rfl

/-- Witness for C8: 26 URLs that all fetch cleanly give exactly two
checkpoint writes. -/
theorem checkpoint_cadence_witness :
    (List.replicate 26 "u").length = 26 ∧
    checkpointWrites (fun (_ : Unit) (_ : String) => (some [] : Option (List String)))
      (fun u => some ((), some u)) (List.replicate 26 "u") [] = 2 :=
  ⟨rfl, (checkpoint_cadence _ _ _ []).2 rfl
    (fun u hu => by rw [List.eq_of_mem_replicate hu]; rfl)⟩

/-- The railcar scraper's nested `get_box_values` is the facility scraper's
box scan followed by the `"; "` join. -/
theorem railcar_get_box_values_join (boxes : List DetailsBox) (heading : String) :
    Railcar.get_box_values boxes heading =
      String.intercalate "; " (get_box_values boxes heading) := by
  unfold Railcar.get_box_values get_box_values
  cases boxes.find? (boxMatches heading) <;> rfl

/-- A script the ld+json loop can process without raising: anything except
JSON parsing to a non-dict, or a `LocalBusiness` whose `address` key holds a
non-dict value (both raise `AttributeError`, which is not caught). -/
def ldSafe : LdScript → Bool
  | .nonDict => false
  | .business b =>
    match b.address with
    | .nonDict => false
    | _ => true
  | _ => true

/-- When every script is safe, the ld+json loop completes normally from any
accumulator. -/
theorem foldLdAux_ok_of_safe :
    ∀ (scripts : List LdScript) (acc : LdIdentity),
      (∀ s ∈ scripts, ldSafe s = true) →
      ∃ idn, foldLdAux acc scripts = Except.ok idn
  | [], acc, _ => ⟨acc, rfl⟩
  | s :: rest, acc, h => by
    have hs := h s (List.mem_cons_self _ _)
    have hrest := fun t ht => h t (List.mem_cons_of_mem _ ht)
    cases s with
    | invalid => exact foldLdAux_ok_of_safe rest acc hrest
    | other => exact foldLdAux_ok_of_safe rest acc hrest
    | nonDict => simp [ldSafe] at hs
    | business b =>
      cases hb : b.address with
      | nonDict => simp [ldSafe, hb] at hs
      | absent =>
        simp only [foldLdAux, hb]
        exact foldLdAux_ok_of_safe rest _ hrest
      | dict a =>
        simp only [foldLdAux, hb]
        exact foldLdAux_ok_of_safe rest _ hrest

/-- C4 counterexample: a page whose title passes the step-1 guard but which
embeds an ld+json script parsing to a non-dict (e.g. a JSON list) makes
`parse_facility` raise an uncaught `AttributeError` at `ld.get("@type")`
instead of returning a record — extraction is NOT total past the step-1
guard, refuting "the extractor returns a record (never None)". -/
theorem extract_schema_not_total_counterexample :
    (strContains ((some "Acme Transload | Commtrex").getD "") "50x" ||
     strContains (pyLower ((some "Acme Transload | Commtrex").getD "")) "error" ||
     strContains ((some "Acme Transload | Commtrex").getD "") "404") = false ∧
    parse_facility "t" ⟨some "Acme Transload | Commtrex", [LdScript.nonDict], [], []⟩
      "https://x/location/42.html" = Except.error PyExn.attributeError :=
  ⟨by decide, rfl⟩

/-- C4 amended: past the step-1 guard, `parse_facility` returns a record
provided no ld+json script parses to a non-dict and no `LocalBusiness`
script carries a non-dict `address` — otherwise the uncaught
`AttributeError` aborts extraction; when it does return a record, the keys
are exactly the fixed CSV schema in order (every field present as a string —
an absent key would surface the `"missing"` default) and every multi-valued
attribute is its collected box values joined with exactly `"; "`.
`parse_railcar_storage`, which has no ld+json step, is unconditionally total
past its guard with the same schema properties. -/
theorem extract_schema_amended :
    (∀ (now : String) (page : FacilityHtml) (url : String),
      (strContains (page.title.getD "") "50x" ||
       strContains (pyLower (page.title.getD "")) "error" ||
       strContains (page.title.getD "") "404") = false →
      (∀ s ∈ page.ldScripts, ldSafe s = true) →
      ∃ r, parse_facility now page url = Except.ok (some r) ∧
        r.map Prod.fst = Facility.CSV_FIELDS ∧
        dictGet r "product_types" "missing" =
          String.intercalate "; " (get_box_values page.boxes "Product Types Handled") ∧
        dictGet r "transfer_modes" "missing" =
          String.intercalate "; " (get_box_values page.boxes "Transfer Modes") ∧
        dictGet r "railroads" "missing" =
          String.intercalate "; " (get_box_values page.boxes "Serving Class I Railroads") ∧
        dictGet r "security_features" "missing" =
          String.intercalate "; " (get_box_values page.boxes "Security") ∧
        dictGet r "equipment" "missing" =
          String.intercalate "; " (get_box_values page.boxes "Transload Equipment") ∧
        dictGet r "cities_served" "missing" =
          String.intercalate "; " (get_box_values page.boxes "Cities Served")) ∧
    (∀ (now : String) (page : RailcarHtml) (url : String),
      (strContains (page.title.getD "") "50x" ||
       strContains (page.title.getD "") "404") = false →
      ∃ r, parse_railcar_storage now page url = some r ∧
        r.map Prod.fst = Railcar.CSV_FIELDS ∧
        dictGet r "rail_services" "missing" =
          String.intercalate "; " (get_box_values page.boxes "Rail Services Offered") ∧
        dictGet r "facility_types" "missing" =
          String.intercalate "; " (get_box_values page.boxes "Facility Type") ∧
        dictGet r "track_types" "missing" =
          String.intercalate "; " (get_box_values page.boxes "Track Type")) := by
  constructor
  · intro now page url h hsafe
    obtain ⟨idn, hfold⟩ := foldLdAux_ok_of_safe page.ldScripts _ hsafe
    have hfold2 : foldLd page.ldScripts = Except.ok idn := hfold
    simp only [parse_facility, h, Bool.false_eq_true, if_false, hfold2]
    exact ⟨_, rfl, rfl, rfl, rfl, rfl, rfl, rfl, rfl⟩
  · intro now page url h
    simp only [parse_railcar_storage, h, Bool.false_eq_true, if_false,
      railcar_get_box_values_join]
    exact ⟨_, rfl, rfl, rfl, rfl, rfl⟩

/-- Witness for C4 amended: a page with a well-formed `LocalBusiness` script
(and one load failure, which is skipped) passes the safety condition and
yields a full-schema record; the railcar page needs no such condition. -/
theorem extract_schema_amended_witness :
    (∃ r, parse_facility "t"
        ⟨some "Acme Transload | Commtrex",
         [LdScript.invalid,
          LdScript.business ⟨some "Acme", some "555-0100", none,
            LdAddressVal.dict ⟨some "1 Main St", some "Springfield", some "IL", none, none⟩⟩],
         [], []⟩
        "https://x/location/42.html" = Except.ok (some r) ∧
        r.map Prod.fst = Facility.CSV_FIELDS) ∧
    (∃ r, parse_railcar_storage "t" ⟨some "Acme Yard | Commtrex", none, [], []⟩
        "https://x/location/42.html" = some r ∧ r.map Prod.fst = Railcar.CSV_FIELDS) := by
  constructor
  · obtain ⟨r, h1, h2, -⟩ := extract_schema_amended.1 "t"
      ⟨some "Acme Transload | Commtrex",
       [LdScript.invalid,
        LdScript.business ⟨some "Acme", some "555-0100", none,
          LdAddressVal.dict ⟨some "1 Main St", some "Springfield", some "IL", none, none⟩⟩],
       [], []⟩
      "https://x/location/42.html" (by decide) (by decide)
    exact ⟨r, h1, h2⟩
  · obtain ⟨r, h1, h2, -⟩ := extract_schema_amended.2 "t"
      ⟨some "Acme Yard | Commtrex", none, [], []⟩ "https://x/location/42.html" (by decide)
    exact ⟨r, h1, h2⟩

/-- C5: a title containing `"404"` or `"50x"` is rejected by both extractors;
`parse_facility` additionally rejects any title containing `"error"`
case-insensitively, while `parse_railcar_storage` applies no such check — a
page titled `"Server Error"` is rejected by the former and extracted by the
latter. -/
theorem title_guard_difference :
    (∀ (now : String) (page : FacilityHtml) (url : String),
      strContains (page.title.getD "") "404" = true ∨
      strContains (page.title.getD "") "50x" = true →
      parse_facility now page url = Except.ok none) ∧
    (∀ (now : String) (page : RailcarHtml) (url : String),
      strContains (page.title.getD "") "404" = true ∨
      strContains (page.title.getD "") "50x" = true →
      parse_railcar_storage now page url = none) ∧
    (∀ (now : String) (page : FacilityHtml) (url : String),
      strContains (pyLower (page.title.getD "")) "error" = true →
      parse_facility now page url = Except.ok none) ∧
    (parse_facility "t" ⟨some "Server Error", [], [], []⟩ "u" = Except.ok none ∧
     ∃ r, parse_railcar_storage "t" ⟨some "Server Error", none, [], []⟩ "u" = some r) := by
  refine ⟨?_, ?_, ?_, ?_, ⟨_, rfl⟩⟩
  · intro now page url h
    rcases h with h | h <;> simp [parse_facility, h]
  · intro now page url h
    rcases h with h | h <;> simp [parse_railcar_storage, h]
  · intro now page url h
    simp [parse_facility, h]
  · rfl

/-- Witness for C5: concrete rejected titles for the universally quantified
guard clauses. -/
theorem title_guard_difference_witness :
    parse_facility "t" ⟨some "404 Not Found", [], [], []⟩ "u" = Except.ok none ∧
    parse_railcar_storage "t" ⟨some "404 Not Found", none, [], []⟩ "u" = none ∧
    parse_railcar_storage "t" ⟨some "Backend 50x error", none, [], []⟩ "u" = none ∧
    parse_facility "t" ⟨some "Internal Server Error", [], [], []⟩ "u" = Except.ok none :=
  ⟨title_guard_difference.1 "t" _ "u" (Or.inl (by decide)),
   title_guard_difference.2.1 "t" _ "u" (Or.inl (by decide)),
   title_guard_difference.2.1 "t" _ "u" (Or.inr (by decide)),
   title_guard_difference.2.2.1 "t" _ "u" (by decide)⟩
